import Mathlib

/-!
Verification of the tabPFN demonstration notebook (`src/tabPFN.ipynb`).

The notebook is a linear pipeline: load a dataset, split it with
`train_test_split(X, y, test_size=0.33, random_state=42)`, fit and predict
with two wrapped estimators (`tabpfn_classifier`, `xgboost_classifier`),
score with `accuracy_score`, and print two percentage lines.

The predictive engines and the sklearn helpers are external libraries whose
source is not part of the repository; they are modelled here from the spec's
contracts, while the notebook's own code (the two wrapper functions and the
straight-line pipeline cell) is embedded directly.
-/

namespace TabPFNRepo

/-! ## Scorer -/

/-- Number of positions at which two label vectors agree (positions beyond
the shorter vector are ignored; the caller checks lengths). -/
def countAgree (a b : List ℚ) : ℕ :=
  (a.zip b).countP (fun p => decide (p.1 = p.2))

/-- Modelled from the spec: `sklearn.metrics.accuracy_score` is not in the
repository; per the spec the Scorer, "given two equal-length label vectors,
returns the fraction of positions at which they agree, as a value in [0,1].
Fails (or is undefined) if lengths differ."  Failure is modelled as `none`. -/
def accuracy_score (y_true y_pred : List ℚ) : Option ℚ :=
  if y_true.length = y_pred.length then
    some ((countAgree y_true y_pred : ℚ) / (y_true.length : ℚ))
  else
    none

lemma countAgree_le_length (a b : List ℚ) : countAgree a b ≤ a.length := by
  unfold countAgree
  calc (a.zip b).countP (fun p => decide (p.1 = p.2)) ≤ (a.zip b).length :=
        List.countP_le_length _
    _ ≤ a.length := by rw [List.length_zip]; exact Nat.min_le_left _ _

lemma countAgree_self (a : List ℚ) : countAgree a a = a.length := by
  unfold countAgree
  induction a with
  | nil => rfl
  | cons x t ih =>
    rw [List.zip_cons_cons, List.countP_cons_of_pos]
    · simpa using ih
    · simp

lemma countAgree_eq_zero (a b : List ℚ)
    (h : ∀ p ∈ a.zip b, p.1 ≠ p.2) : countAgree a b = 0 := by
  unfold countAgree
  rw [List.countP_eq_zero]
  intro p hp
  simpa using h p hp

lemma countAgree_comm (a b : List ℚ) : countAgree a b = countAgree b a := by
  unfold countAgree
  rw [← List.zip_swap a b, List.countP_map]
  refine List.countP_congr ?_
  intro p _
  simp [Function.comp, eq_comm]

/-! ## Splitter -/

/-- A linear congruential step, standing in for the external pseudo-random
number generator seeded by `random_state`. -/
def lcg (s : ℕ) : ℕ := (1103515245 * s + 12345) % 2147483648

/-- One selection step per unit of fuel: pick the element at the
pseudo-random position, then continue on the rest with the stepped state. -/
def shuffleGo : ℕ → ℕ → List ℕ → List ℕ
  | _, 0, _ => []
  | _, _ + 1, [] => []
  | s, fuel + 1, x :: t =>
    (x :: t).getD (s % (x :: t).length) 0 ::
      shuffleGo (lcg s) fuel ((x :: t).erase ((x :: t).getD (s % (x :: t).length) 0))

/-- Modelled from the spec: the Splitter shuffles the row indices as "a
deterministic function of the seed"; the external generator is modelled by
a seeded selection shuffle driven by `lcg`. -/
def seededShuffle (s : ℕ) (l : List ℕ) : List ℕ := shuffleGo s l.length l

lemma shuffleGo_perm :
    ∀ (fuel s : ℕ) (l : List ℕ), l.length ≤ fuel → (shuffleGo s fuel l).Perm l := by
  intro fuel
  induction fuel with
  | zero =>
    intro s l h
    rw [List.eq_nil_of_length_eq_zero (Nat.le_zero.mp h)]
    exact List.Perm.refl _
  | succ n ih =>
    intro s l h
    match l with
    | [] => exact List.Perm.refl _
    | x :: t =>
      rw [shuffleGo]
      have hl : 0 < (x :: t).length := by simp
      have ha : (x :: t).getD (s % (x :: t).length) 0 ∈ x :: t := by
        rw [List.getD_eq_getElem _ _ (Nat.mod_lt s hl)]
        exact List.getElem_mem _
      have hlen : ((x :: t).erase ((x :: t).getD (s % (x :: t).length) 0)).length ≤ n := by
        rw [List.length_erase_of_mem ha]
        have := List.length_cons x t ▸ h
        omega
      exact ((ih (lcg s) _ hlen).cons _).trans (List.perm_cons_erase ha).symm

/-- The seeded shuffle is a permutation of its input. -/
lemma seededShuffle_perm (s : ℕ) (l : List ℕ) : (seededShuffle s l).Perm l :=
  shuffleGo_perm l.length s l (Nat.le_refl _)

/-- The shuffled row indices for `n` rows under seed `seed`. -/
def permIndices (n seed : ℕ) : List ℕ := seededShuffle seed (List.range n)

/-- Number of held-out rows for a fractional `test_size`: `⌈frac · n⌉`. -/
def nTest (n : ℕ) (frac : ℚ) : ℕ := Nat.ceil (frac * n)

/-- Row indices of the held-out (test) set. -/
def testIndices (n : ℕ) (frac : ℚ) (seed : ℕ) : List ℕ :=
  (permIndices n seed).take (nTest n frac)

/-- Row indices of the training set. -/
def trainIndices (n : ℕ) (frac : ℚ) (seed : ℕ) : List ℕ :=
  (permIndices n seed).drop (nTest n frac)

lemma permIndices_perm_range (n seed : ℕ) :
    (permIndices n seed).Perm (List.range n) :=
  seededShuffle_perm seed (List.range n)

lemma test_append_train_perm_range (n : ℕ) (frac : ℚ) (seed : ℕ) :
    (testIndices n frac seed ++ trainIndices n frac seed).Perm (List.range n) := by
  rw [testIndices, trainIndices, List.take_append_drop]
  exact permIndices_perm_range n seed

lemma mem_testIndices_lt (n : ℕ) (frac : ℚ) (seed : ℕ) {i : ℕ}
    (h : i ∈ testIndices n frac seed) : i < n := by
  have : i ∈ List.range n :=
    (test_append_train_perm_range n frac seed).mem_iff.mp
      (List.mem_append_left _ h)
  exact List.mem_range.mp this

lemma mem_trainIndices_lt (n : ℕ) (frac : ℚ) (seed : ℕ) {i : ℕ}
    (h : i ∈ trainIndices n frac seed) : i < n := by
  have : i ∈ List.range n :=
    (test_append_train_perm_range n frac seed).mem_iff.mp
      (List.mem_append_right _ h)
  exact List.mem_range.mp this

lemma disjoint_test_train (n : ℕ) (frac : ℚ) (seed : ℕ) :
    (testIndices n frac seed).Disjoint (trainIndices n frac seed) := by
  have hnd : (testIndices n frac seed ++ trainIndices n frac seed).Nodup :=
    (test_append_train_perm_range n frac seed).nodup_iff.mpr (List.nodup_range n)
  exact (List.nodup_append.mp hnd).2.2

lemma cover_test_train (n : ℕ) (frac : ℚ) (seed : ℕ) {i : ℕ} (h : i < n) :
    i ∈ trainIndices n frac seed ∨ i ∈ testIndices n frac seed := by
  have : i ∈ testIndices n frac seed ++ trainIndices n frac seed :=
    (test_append_train_perm_range n frac seed).mem_iff.mpr (List.mem_range.mpr h)
  rcases List.mem_append.mp this with h1 | h2
  · exact Or.inr h1
  · exact Or.inl h2

/-- Selecting the rows of `X` at the index list `idx`; an out-of-range index
contributes nothing (in the Splitter every index is in range). -/
def selectRows {α : Type} (X : List α) (idx : List ℕ) : List α :=
  idx.filterMap (fun i => X[i]?)

lemma selectRows_range {α : Type} (X : List α) :
    selectRows X (List.range X.length) = X := by
  unfold selectRows
  induction X with
  | nil => rfl
  | cons x t ih =>
    rw [List.length_cons, List.range_succ_eq_map, List.filterMap_cons,
      List.filterMap_map]
    simp only [List.getElem?_cons_zero]
    have : (fun i => (x :: t)[i]?) ∘ Nat.succ = fun i => t[i]? := by
      funext i
      simp
    rw [this, ih]

lemma selectRows_length {α : Type} (X : List α) (idx : List ℕ)
    (h : ∀ i ∈ idx, i < X.length) :
    (selectRows X idx).length = idx.length := by
  unfold selectRows
  induction idx with
  | nil => rfl
  | cons j t ih =>
    rw [List.filterMap_cons]
    have hj : j < X.length := h j (List.mem_cons_self j t)
    rw [List.getElem?_eq_getElem hj]
    simp only [List.length_cons]
    rw [ih (fun i hi => h i (List.mem_cons_of_mem j hi))]

lemma selectRows_perm {α : Type} (X : List α) (idx : List ℕ)
    (h : idx.Perm (List.range X.length)) :
    (selectRows X idx).Perm X := by
  have := List.Perm.filterMap (fun i => X[i]?) h
  rw [selectRows]
  rw [show (List.range X.length).filterMap (fun i => X[i]?) =
        selectRows X (List.range X.length) from rfl, selectRows_range] at this
  exact this

/-- The four outputs of the Splitter, in sklearn's order. -/
structure SplitResult where
  X_train : List (List ℚ)
  X_test : List (List ℚ)
  y_train : List ℚ
  y_test : List ℚ

/-- Modelled from the spec: `sklearn.model_selection.train_test_split` is not
in the repository; per the spec the Splitter, "given (features, labels,
held-out fraction, seed), returns four partitions (train features, test
features, train labels, test labels) such that the partition is a
deterministic function of the seed", where "fraction must lie in (0,1);
failing that is a configuration error" that "aborts the run" (modelled as
`none`), and the label vector is "aligned by row index with the feature
matrix" (so mismatched lengths also abort). -/
def train_test_split (X : List (List ℚ)) (y : List ℚ) (test_size : ℚ)
    (random_state : ℕ) : Option SplitResult :=
  if 0 < test_size ∧ test_size < 1 ∧ X.length = y.length then
    some ⟨selectRows X (trainIndices X.length test_size random_state),
          selectRows X (testIndices X.length test_size random_state),
          selectRows y (trainIndices X.length test_size random_state),
          selectRows y (testIndices X.length test_size random_state)⟩
  else
    none

lemma train_test_split_some {X : List (List ℚ)} {y : List ℚ} {f : ℚ} {s : ℕ}
    {r : SplitResult} (h : train_test_split X y f s = some r) :
    0 < f ∧ f < 1 ∧ X.length = y.length ∧
      r = ⟨selectRows X (trainIndices X.length f s),
           selectRows X (testIndices X.length f s),
           selectRows y (trainIndices X.length f s),
           selectRows y (testIndices X.length f s)⟩ := by
  unfold train_test_split at h
  by_cases hc : 0 < f ∧ f < 1 ∧ X.length = y.length
  · rw [if_pos hc] at h
    exact ⟨hc.1, hc.2.1, hc.2.2, (Option.some_injective _ h).symm⟩
  · rw [if_neg hc] at h
    exact absurd h (Option.noConfusion)

lemma split_y_test_length {X : List (List ℚ)} {y : List ℚ} {f : ℚ} {s : ℕ}
    {r : SplitResult} (h : train_test_split X y f s = some r) :
    r.y_test.length = r.X_test.length := by
  obtain ⟨-, -, hxy, hr⟩ := train_test_split_some h
  subst hr
  simp only
  rw [selectRows_length X _ (fun i hi => mem_testIndices_lt X.length f s hi),
    selectRows_length y _ (fun i hi => hxy ▸ mem_testIndices_lt X.length f s hi)]

/-! ## Model adapters

The two predictive engines (the pretrained TabPFN transformer and the
XGBoost gradient-boosted trees) are external, opaque libraries.  Modelled
from the spec: the adapter contract "only guarantees: after
`fit(train_X, train_y)`, `predict(test_X)` returns one label per row of
`test_X`, with no use of test-set statistics (each test row's prediction is
independent of all other test rows)" — so an external estimator is modelled
as a per-row prediction function of the fitted training data. -/

/-- Modelled from the spec: the external `TabPFNClassifier`.  `predRow`
gives the predicted label of one test row after fitting on
`(train_X, train_y)`; `probRow` gives the winning probability the notebook
requests with `return_winning_probability=True`. -/
structure TabPFNClassifierModel where
  predRow : List (List ℚ) → List ℚ → List ℚ → ℚ
  probRow : List (List ℚ) → List ℚ → List ℚ → ℚ

/-- Modelled from the spec: the external `xgb.XGBClassifier`; `predRow`
gives the predicted label of one test row after fitting. -/
structure XGBClassifierModel where
  predRow : List (List ℚ) → List ℚ → List ℚ → ℚ

/-- The notebook's `tabpfn_classifier(X_train, y_train, X_test)` wrapper:
fits the TabPFN estimator and returns the pair
`(y_pred, p_pred) = model.predict(X_test, return_winning_probability=True)`. -/
def tabpfn_classifier (M : TabPFNClassifierModel) (X_train : List (List ℚ))
    (y_train : List ℚ) (X_test : List (List ℚ)) : List ℚ × List ℚ :=
  (X_test.map (M.predRow X_train y_train), X_test.map (M.probRow X_train y_train))

/-- The notebook's `xgboost_classifier(X_train, y_train, X_test)` wrapper:
fits the XGBoost estimator and returns the single vector
`y_pred = model.predict(X_test)`. -/
def xgboost_classifier (M : XGBClassifierModel) (X_train : List (List ℚ))
    (y_train : List ℚ) (X_test : List (List ℚ)) : List ℚ :=
  X_test.map (M.predRow X_train y_train)

/-- The value returned by `tabpfn_classifier`, viewed as the list of arrays
a Python caller receives (a tuple of two arrays). -/
def tabpfn_classifier_arrays (M : TabPFNClassifierModel) (X_train : List (List ℚ))
    (y_train : List ℚ) (X_test : List (List ℚ)) : List (List ℚ) :=
  [(tabpfn_classifier M X_train y_train X_test).1,
   (tabpfn_classifier M X_train y_train X_test).2]

/-- The value returned by `xgboost_classifier`, viewed as the list of arrays
a Python caller receives (a single array). -/
def xgboost_classifier_arrays (M : XGBClassifierModel) (X_train : List (List ℚ))
    (y_train : List ℚ) (X_test : List (List ℚ)) : List (List ℚ) :=
  [xgboost_classifier M X_train y_train X_test]

/-! ## Reporter -/

/-- The decimal digit character for `d % 10`. -/
def digitChar (d : ℕ) : Char :=
  ['0', '1', '2', '3', '4', '5', '6', '7', '8', '9'].getD (d % 10) '0'

/-- Three decimal digits rendering `k % 1000`, most significant first. -/
def pad3 (k : ℕ) : String :=
  String.mk [digitChar (k / 100), digitChar (k / 10), digitChar k]

/-- Modelled from the spec: Python's fixed-point float formatting (the
format specifier ".3f" in the notebook's print statements) — the value
times 1000 is rounded to the nearest integer and rendered with exactly
three digits after the decimal point. -/
def formatFixed3 (q : ℚ) : String :=
  (if q < 0 then "-" else "") ++
    Nat.repr ((round (1000 * q)).natAbs / 1000) ++ "." ++
    pad3 ((round (1000 * q)).natAbs % 1000)

/-- One printed line of the notebook's final cell:
`Accuracy (<name>) = <pct:.3f>%`. -/
def reportLine (name : String) (pct : ℚ) : String :=
  "Accuracy (" ++ name ++ ") = " ++ formatFixed3 pct ++ "%"

/-- The Reporter: given the two accuracy scalars in [0,1], the notebook
prints the two percentage lines (the `100 *` conversion happens where the
accuracies are computed).  Pure: the output is modelled as the returned
list of lines, and the function has no other effect. -/
def report (tabpfn_acc xgb_acc : ℚ) : List String :=
  [reportLine "TabPFN" (100 * tabpfn_acc), reportLine "XGBoost" (100 * xgb_acc)]

lemma digitChar_isDigit (d : ℕ) : (digitChar d).isDigit := by
  have h : ∀ m < 10,
      (['0', '1', '2', '3', '4', '5', '6', '7', '8', '9'].getD m '0').isDigit := by
    decide
  exact h (d % 10) (Nat.mod_lt d (by norm_num))

lemma pad3_length (k : ℕ) : (pad3 k).length = 3 := rfl

lemma pad3_digits (k : ℕ) : ∀ c ∈ (pad3 k).data, c.isDigit := by
  intro c hc
  have h3 : c = digitChar (k / 100) ∨ c = digitChar (k / 10) ∨ c = digitChar k := by
    simpa [pad3] using hc
  rcases h3 with h | h | h <;> exact h ▸ digitChar_isDigit _

/-- Every line the Reporter can produce splits as
`pre ++ "." ++ frac ++ "%"` with `frac` exactly three decimal digits. -/
lemma reportLine_shape (name : String) (pct : ℚ) :
    ∃ pre frac, reportLine name pct = pre ++ "." ++ frac ++ "%" ∧
      frac.length = 3 ∧ ∀ c ∈ frac.data, c.isDigit := by
  refine ⟨"Accuracy (" ++ name ++ ") = " ++
    ((if pct < 0 then "-" else "") ++
      Nat.repr ((round (1000 * pct)).natAbs / 1000)),
    pad3 ((round (1000 * pct)).natAbs % 1000), ?_, pad3_length _, pad3_digits _⟩
  unfold reportLine formatFixed3
  simp only [String.append_assoc]

/-! ## The pipeline cell

The notebook's fourth cell, embedded statement by statement:

  X_train, X_test, y_train, y_test = train_test_split(X, y, test_size=0.33, random_state=42)
  y_pred, p_pred = tabpfn_classifier(X_train, y_train, X_test)
  tabpfn_accuracy = 100 * accuracy_score(y_test, y_pred)
  y_pred = xgboost_classifier(X_train, y_train, X_test)
  xgb_accuracy = 100 * accuracy_score(y_test, y_pred)

A failing split or scorer (which raises in Python) propagates as `none`;
the result is the pair `(tabpfn_accuracy, xgb_accuracy)`.  The Python
statement `y_pred = xgboost_classifier(...)` rebinds the name `y_pred`
after `tabpfn_accuracy` has already been computed; here that sequencing is
the nesting of the binds. -/
def pipeline (Mt : TabPFNClassifierModel) (Mx : XGBClassifierModel)
    (X : List (List ℚ)) (y : List ℚ) : Option (ℚ × ℚ) :=
  (train_test_split X y (33 / 100) 42).bind (fun r =>
    (accuracy_score r.y_test (tabpfn_classifier Mt r.X_train r.y_train r.X_test).1).bind
      (fun a =>
        (accuracy_score r.y_test (xgboost_classifier Mx r.X_train r.y_train r.X_test)).bind
          (fun b => some (100 * a, 100 * b))))

/-! ## Concrete instantiations used to evaluate the embedding -/

/-- A concrete modelled TabPFN estimator (constant predictions). -/
def constTabPFN : TabPFNClassifierModel := ⟨fun _ _ _ => 1, fun _ _ _ => 1⟩

/-- A second concrete modelled TabPFN estimator, distinct from `constTabPFN`. -/
def constTabPFN2 : TabPFNClassifierModel := ⟨fun _ _ _ => 0, fun _ _ _ => 0⟩

/-- A concrete modelled XGBoost estimator (constant predictions). -/
def constXGB : XGBClassifierModel := ⟨fun _ _ _ => 1⟩

/-- A second concrete modelled XGBoost estimator, distinct from `constXGB`. -/
def constXGB2 : XGBClassifierModel := ⟨fun _ _ _ => 0⟩

lemma nTest_three : nTest 3 (33 / 100) = 1 := by
  rw [nTest, Nat.ceil_eq_iff (by norm_num)]
  norm_num

lemma permIndices_three : permIndices 3 42 = [0, 2, 1] := by decide

lemma trainIndices_three : trainIndices 3 (33 / 100) 42 = [2, 1] := by
  rw [trainIndices, nTest_three, permIndices_three]
  rfl

lemma testIndices_three : testIndices 3 (33 / 100) 42 = [0] := by
  rw [testIndices, nTest_three, permIndices_three]
  rfl

/-- The Splitter evaluated on a concrete 3-row dataset. -/
lemma split_eval :
    train_test_split [[10], [11], [12]] [0, 1, 2] (33 / 100) 42 =
      some ⟨[[12], [11]], [[10]], [2, 1], [0]⟩ := by
  unfold train_test_split
  rw [if_pos ⟨by norm_num, by norm_num, rfl⟩]
  rw [show ([[10], [11], [12]] : List (List ℚ)).length = 3 from rfl,
    trainIndices_three, testIndices_three]
  rfl

/-! ## The claims -/

lemma accuracy_score_eq_some {a b : List ℚ} (h : a.length = b.length) :
    accuracy_score a b = some ((countAgree a b : ℚ) / (a.length : ℚ)) := by
  unfold accuracy_score
  rw [if_pos h]

/-- C1: for every pair of equal-length label vectors the Scorer returns the
fraction of agreeing positions, a value in [0,1]; it returns 1 when the
vectors are equal (and nonempty — for empty vectors the fraction of
positions is the undefined 0/0) and 0 when they disagree at every
position. -/
theorem scorer_returns_agreement_fraction (a b : List ℚ)
    (h : a.length = b.length) :
    ∃ r, accuracy_score a b = some r ∧
      r = (countAgree a b : ℚ) / (a.length : ℚ) ∧ 0 ≤ r ∧ r ≤ 1 ∧
      (a = b → a ≠ [] → r = 1) ∧ ((∀ p ∈ a.zip b, p.1 ≠ p.2) → r = 0) := by
  refine ⟨(countAgree a b : ℚ) / (a.length : ℚ),
    accuracy_score_eq_some h, rfl, ?_, ?_, ?_, ?_⟩
  · positivity
  · rcases Nat.eq_zero_or_pos a.length with h0 | h0
    · rw [h0]
      simp
    · rw [div_le_one (by exact_mod_cast h0)]
      exact_mod_cast countAgree_le_length a b
  · intro hab hne
    subst hab
    rw [countAgree_self]
    have hz : (a.length : ℚ) ≠ 0 := by
      exact_mod_cast fun hz => hne (List.eq_nil_of_length_eq_zero hz)
    exact div_self hz
  · intro hd
    rw [countAgree_eq_zero a b hd]
    simp

/-- Witness for C1 at the concrete input `a = [1,2]`, `b = [1,3]`. -/
theorem scorer_returns_agreement_fraction_witness :
    ∃ r, accuracy_score [1, 2] [1, 3] = some r ∧
      r = (countAgree [1, 2] [1, 3] : ℚ) / (([1, 2] : List ℚ).length : ℚ) ∧
      0 ≤ r ∧ r ≤ 1 ∧
      (([1, 2] : List ℚ) = [1, 3] → ([1, 2] : List ℚ) ≠ [] → r = 1) ∧
      ((∀ p ∈ ([1, 2] : List ℚ).zip [1, 3], p.1 ≠ p.2) → r = 0) :=
  scorer_returns_agreement_fraction [1, 2] [1, 3] rfl

/-- C6: the Scorer is symmetric in its two arguments. -/
theorem scorer_symmetric (a b : List ℚ) :
    accuracy_score a b = accuracy_score b a := by
  unfold accuracy_score
  by_cases h : a.length = b.length
  · rw [if_pos h, if_pos h.symm, countAgree_comm, h]
  · rw [if_neg h, if_neg (fun hh => h hh.symm)]

/-- C7: the Scorer fails (returns no accuracy value) exactly when its two
arguments have different lengths. -/
theorem scorer_none_iff_length_mismatch (a b : List ℚ) :
    accuracy_score a b = none ↔ a.length ≠ b.length := by
  unfold accuracy_score
  by_cases h : a.length = b.length
  · simp [h]
  · simp [h]

/-- C2: the Splitter is a deterministic function of its inputs — two runs on
the same features, labels, fraction and seed produce identical partitions. -/
theorem splitter_deterministic (X : List (List ℚ)) (y : List ℚ) (f : ℚ)
    (s : ℕ) (r₁ r₂ : Option SplitResult)
    (h₁ : train_test_split X y f s = r₁)
    (h₂ : train_test_split X y f s = r₂) : r₁ = r₂ :=
  h₁.symm.trans h₂

/-- Witness for C2: two runs on a concrete 3-row dataset produce the same
concrete partition. -/
theorem splitter_deterministic_witness :
    (some ⟨[[12], [11]], [[10]], [2, 1], [0]⟩ : Option SplitResult) =
      some ⟨[[12], [11]], [[10]], [2, 1], [0]⟩ :=
  splitter_deterministic [[10], [11], [12]] [0, 1, 2] (33 / 100) 42 _ _
    split_eval split_eval

/-- C3: whenever the Splitter produces a partition, the train and test rows
together are a permutation of the input rows (for features and labels
alike), and the train and test index sets are disjoint and cover every row
index. -/
theorem splitter_partition (X : List (List ℚ)) (y : List ℚ) (f : ℚ) (s : ℕ)
    (r : SplitResult) (h : train_test_split X y f s = some r) :
    (r.X_train ++ r.X_test).Perm X ∧ (r.y_train ++ r.y_test).Perm y ∧
      (trainIndices X.length f s).Disjoint (testIndices X.length f s) ∧
      ∀ i < X.length,
        i ∈ trainIndices X.length f s ∨ i ∈ testIndices X.length f s := by
  obtain ⟨-, -, hxy, hr⟩ := train_test_split_some h
  subst hr
  have hperm : (trainIndices X.length f s ++ testIndices X.length f s).Perm
      (List.range X.length) :=
    (List.perm_append_comm).trans (test_append_train_perm_range X.length f s)
  refine ⟨?_, ?_, (disjoint_test_train X.length f s).symm,
    fun i hi => cover_test_train X.length f s hi⟩
  · rw [show selectRows X (trainIndices X.length f s) ++
          selectRows X (testIndices X.length f s) =
          selectRows X (trainIndices X.length f s ++ testIndices X.length f s) by
        rw [selectRows, selectRows, selectRows, List.filterMap_append]]
    exact selectRows_perm X _ hperm
  · rw [show selectRows y (trainIndices X.length f s) ++
          selectRows y (testIndices X.length f s) =
          selectRows y (trainIndices X.length f s ++ testIndices X.length f s) by
        rw [selectRows, selectRows, selectRows, List.filterMap_append]]
    exact selectRows_perm y _ (hxy ▸ hperm)

/-- Witness for C3 on a concrete 3-row dataset. -/
theorem splitter_partition_witness :
    (([[12], [11]] : List (List ℚ)) ++ [[10]]).Perm [[10], [11], [12]] ∧
      (([2, 1] : List ℚ) ++ [0]).Perm [0, 1, 2] ∧
      (trainIndices 3 (33 / 100) 42).Disjoint (testIndices 3 (33 / 100) 42) ∧
      ∀ i < 3,
        i ∈ trainIndices 3 (33 / 100) 42 ∨ i ∈ testIndices 3 (33 / 100) 42 :=
  splitter_partition [[10], [11], [12]] [0, 1, 2] (33 / 100) 42
    ⟨[[12], [11]], [[10]], [2, 1], [0]⟩ split_eval

/-- C8: a held-out fraction outside (0,1) is rejected: the Splitter aborts
(producing no partition) rather than splitting. -/
theorem splitter_rejects_invalid_fraction (X : List (List ℚ)) (y : List ℚ)
    (f : ℚ) (s : ℕ) (h : f ≤ 0 ∨ 1 ≤ f) :
    train_test_split X y f s = none := by
  have hc : ¬(0 < f ∧ f < 1 ∧ X.length = y.length) := by
    rintro ⟨h1, h2, -⟩
    rcases h with hh | hh
    · exact absurd h1 (not_lt.mpr hh)
    · exact absurd h2 (not_lt.mpr hh)
  unfold train_test_split
  rw [if_neg hc]

/-- Witness for C8 at the concrete out-of-range fraction 3/2. -/
theorem splitter_rejects_invalid_fraction_witness :
    train_test_split [[1]] [0] (3 / 2) 0 = none :=
  splitter_rejects_invalid_fraction [[1]] [0] (3 / 2) 0 (Or.inr (by norm_num))

/-- C4 (counterexample): the two wrappers do NOT have the same return shape.
At a concrete input the TabPFN wrapper returns two arrays (predictions and
winning probabilities, since it calls predict with
`return_winning_probability=True`) while the XGBoost wrapper returns a
single prediction array. -/
theorem adapters_return_shape_differs :
    (tabpfn_classifier_arrays constTabPFN [[0]] [0] [[1]]).length = 2 ∧
      (xgboost_classifier_arrays constXGB [[0]] [0] [[1]]).length = 1 ∧
      (tabpfn_classifier_arrays constTabPFN [[0]] [0] [[1]]).length ≠
        (xgboost_classifier_arrays constXGB [[0]] [0] [[1]]).length :=
  ⟨rfl, rfl, by decide⟩

/-- C4 (amended): both wrappers expose the same uniform call shape
`classifier(X_train, y_train, X_test)` and produce one prediction per test
row, but their return shapes differ: the TabPFN wrapper returns two vectors
(predictions and winning probabilities) and the XGBoost wrapper returns the
single prediction vector. -/
theorem adapters_uniform_fit_predict_shapes (Mt : TabPFNClassifierModel)
    (Mx : XGBClassifierModel) (X_train : List (List ℚ)) (y_train : List ℚ)
    (X_test : List (List ℚ)) :
    (tabpfn_classifier_arrays Mt X_train y_train X_test).length = 2 ∧
      (xgboost_classifier_arrays Mx X_train y_train X_test).length = 1 ∧
      (tabpfn_classifier Mt X_train y_train X_test).1.length = X_test.length ∧
      (tabpfn_classifier Mt X_train y_train X_test).2.length = X_test.length ∧
      (xgboost_classifier Mx X_train y_train X_test).length = X_test.length := by
  refine ⟨rfl, rfl, ?_, ?_, ?_⟩ <;> simp [tabpfn_classifier, xgboost_classifier]

/-- C9: after fitting, each adapter returns one prediction per test row, and
the prediction for a row does not depend on the other test rows: predicting
the row alone gives the same label as predicting it inside a batch. -/
theorem adapters_predict_per_row (Mt : TabPFNClassifierModel)
    (Mx : XGBClassifierModel) (X_train : List (List ℚ)) (y_train : List ℚ)
    (X_test : List (List ℚ)) (i : ℕ) (hi : i < X_test.length) :
    (tabpfn_classifier Mt X_train y_train X_test).1.length = X_test.length ∧
      (xgboost_classifier Mx X_train y_train X_test).length = X_test.length ∧
      (tabpfn_classifier Mt X_train y_train X_test).1[i]? =
        (tabpfn_classifier Mt X_train y_train [X_test[i]]).1[0]? ∧
      (xgboost_classifier Mx X_train y_train X_test)[i]? =
        (xgboost_classifier Mx X_train y_train [X_test[i]])[0]? := by
  unfold tabpfn_classifier xgboost_classifier
  refine ⟨by simp, by simp, ?_, ?_⟩ <;>
    simp [List.getElem?_map, List.getElem?_eq_getElem, hi]

/-- Witness for C9: row 0 of a concrete two-row test set gets the same
prediction alone as in the batch. -/
theorem adapters_predict_per_row_witness :
    (tabpfn_classifier constTabPFN [[0]] [0] [[1], [2]]).1.length = 2 ∧
      (xgboost_classifier constXGB [[0]] [0] [[1], [2]]).length = 2 ∧
      (tabpfn_classifier constTabPFN [[0]] [0] [[1], [2]]).1[0]? =
        (tabpfn_classifier constTabPFN [[0]] [0] [[1]]).1[0]? ∧
      (xgboost_classifier constXGB [[0]] [0] [[1], [2]])[0]? =
        (xgboost_classifier constXGB [[0]] [0] [[1]])[0]? :=
  adapters_predict_per_row constTabPFN constXGB [[0]] [0] [[1], [2]] 0
    (by decide)

/-- C5: given two accuracy scalars in [0,1], the Reporter emits exactly two
lines, each of the form `pre ++ "." ++ frac ++ "%"` where `frac` is exactly
three decimal digits; it is a pure function of the two scalars (its only
output is the returned lines). -/
theorem reporter_two_lines_three_decimals (a b : ℚ)
    (_ha0 : 0 ≤ a) (_ha1 : a ≤ 1) (_hb0 : 0 ≤ b) (_hb1 : b ≤ 1) :
    (report a b).length = 2 ∧
      ∀ s ∈ report a b, ∃ pre frac, s = pre ++ "." ++ frac ++ "%" ∧
        frac.length = 3 ∧ ∀ c ∈ frac.data, c.isDigit := by
  refine ⟨rfl, ?_⟩
  intro s hs
  have h2 : s = reportLine "TabPFN" (100 * a) ∨
      s = reportLine "XGBoost" (100 * b) := by
    simpa [report] using hs
  rcases h2 with h | h
  · exact h ▸ reportLine_shape _ _
  · exact h ▸ reportLine_shape _ _

/-- Witness for C5 at the concrete accuracies 1/2 and 1/3. -/
theorem reporter_two_lines_three_decimals_witness :
    (report (1 / 2) (1 / 3)).length = 2 ∧
      ∀ s ∈ report (1 / 2) (1 / 3), ∃ pre frac,
        s = pre ++ "." ++ frac ++ "%" ∧
        frac.length = 3 ∧ ∀ c ∈ frac.data, c.isDigit :=
  reporter_two_lines_three_decimals (1 / 2) (1 / 3) (by norm_num) (by norm_num)
    (by norm_num) (by norm_num)

/-- C10: the pipeline computes the split once, fits both models on the same
training part and scores both against the same held-out labels; the TabPFN
accuracy does not depend on the XGBoost model (so the rebinding of `y_pred`
leaves it unchanged) and the XGBoost accuracy does not depend on the TabPFN
model — each reported accuracy derives solely from its own model's
predictions on that single split. -/
theorem pipeline_single_split_own_accuracies (Mt Mt' : TabPFNClassifierModel)
    (Mx Mx' : XGBClassifierModel) (X : List (List ℚ)) (y : List ℚ)
    (r : SplitResult) (hs : train_test_split X y (33 / 100) 42 = some r) :
    (∃ qa qb,
      accuracy_score r.y_test
          (tabpfn_classifier Mt r.X_train r.y_train r.X_test).1 = some qa ∧
      accuracy_score r.y_test
          (xgboost_classifier Mx r.X_train r.y_train r.X_test) = some qb ∧
      pipeline Mt Mx X y = some (100 * qa, 100 * qb)) ∧
    (pipeline Mt Mx X y).map Prod.fst = (pipeline Mt Mx' X y).map Prod.fst ∧
    (pipeline Mt Mx X y).map Prod.snd = (pipeline Mt' Mx X y).map Prod.snd := by
  have hyt := split_y_test_length hs
  have hta : ∀ M : TabPFNClassifierModel,
      accuracy_score r.y_test (tabpfn_classifier M r.X_train r.y_train r.X_test).1 =
        some ((countAgree r.y_test
          (tabpfn_classifier M r.X_train r.y_train r.X_test).1 : ℚ) /
            (r.y_test.length : ℚ)) := by
    intro M
    refine accuracy_score_eq_some ?_
    rw [hyt]
    simp [tabpfn_classifier]
  have hxa : ∀ M : XGBClassifierModel,
      accuracy_score r.y_test (xgboost_classifier M r.X_train r.y_train r.X_test) =
        some ((countAgree r.y_test
          (xgboost_classifier M r.X_train r.y_train r.X_test) : ℚ) /
            (r.y_test.length : ℚ)) := by
    intro M
    refine accuracy_score_eq_some ?_
    rw [hyt]
    simp [xgboost_classifier]
  have hpipe : ∀ (Mta : TabPFNClassifierModel) (Mxa : XGBClassifierModel),
      pipeline Mta Mxa X y =
        some (100 * ((countAgree r.y_test
            (tabpfn_classifier Mta r.X_train r.y_train r.X_test).1 : ℚ) /
              (r.y_test.length : ℚ)),
          100 * ((countAgree r.y_test
            (xgboost_classifier Mxa r.X_train r.y_train r.X_test) : ℚ) /
              (r.y_test.length : ℚ))) := by
    intro Mta Mxa
    unfold pipeline
    rw [hs, Option.some_bind, hta Mta, Option.some_bind, hxa Mxa,
      Option.some_bind]
  refine ⟨⟨_, _, hta Mt, hxa Mx, hpipe Mt Mx⟩, ?_, ?_⟩
  · rw [hpipe Mt Mx, hpipe Mt Mx']
    rfl
  · rw [hpipe Mt Mx, hpipe Mt' Mx]
    rfl

/-- Witness for C10 on a concrete 3-row dataset and concrete estimators. -/
theorem pipeline_single_split_own_accuracies_witness :
    (∃ qa qb,
      accuracy_score [0]
          (tabpfn_classifier constTabPFN [[12], [11]] [2, 1] [[10]]).1 = some qa ∧
      accuracy_score [0]
          (xgboost_classifier constXGB [[12], [11]] [2, 1] [[10]]) = some qb ∧
      pipeline constTabPFN constXGB [[10], [11], [12]] [0, 1, 2] =
        some (100 * qa, 100 * qb)) ∧
    (pipeline constTabPFN constXGB [[10], [11], [12]] [0, 1, 2]).map Prod.fst =
      (pipeline constTabPFN constXGB2 [[10], [11], [12]] [0, 1, 2]).map Prod.fst ∧
    (pipeline constTabPFN constXGB [[10], [11], [12]] [0, 1, 2]).map Prod.snd =
      (pipeline constTabPFN2 constXGB [[10], [11], [12]] [0, 1, 2]).map Prod.snd :=
  pipeline_single_split_own_accuracies constTabPFN constTabPFN2 constXGB
    constXGB2 [[10], [11], [12]] [0, 1, 2] ⟨[[12], [11]], [[10]], [2, 1], [0]⟩
    split_eval

end TabPFNRepo
